import Mathlib

/-!
Verification of the ALNPlayerScan utility scripts.

Shallow embedding of the repository's five Python scripts:
  * `sync.py` — run_command, generate_qr_codes
  * `convert-arduino-assets.py` (and its `scripts/` near-duplicate) —
    candidate-filename image search, placeholder creation, tokens.json update
  * `create_placeholders.py` — skip-if-exists placeholder loop, word wrap
  * `generate-qr.py` — simple / labeled / colored QR generation

The filesystem is modelled as data passed explicitly (lists of file names,
or boolean existence predicates); external effects (PIL image construction,
ffmpeg, git) are modelled by the data the scripts feed them and the
outcomes the scripts inspect.
-/

namespace ALN

/-- Substring test, embedding Python's `needle in haystack` on strings. -/
def strContains (hay needle : String) : Bool :=
  decide (List.IsInfix needle.toList hay.toList)

/-- Python's `str.upper()` (character-wise). -/
def pyUpper (s : String) : String := ⟨s.data.map Char.toUpper⟩

/-- Python's `str.lower()` (character-wise). -/
def pyLower (s : String) : String := ⟨s.data.map Char.toLower⟩

/-- Python's `s.replace(a, b)` for one-character `a`/`b`. -/
def pyReplaceChar (s : String) (a b : Char) : String :=
  ⟨s.data.map (fun c => if c = a then b else c)⟩

/-- Python's `s.replace(a, '')` for a one-character `a`. -/
def pyRemoveChar (s : String) (a : Char) : String :=
  ⟨s.data.filter (fun c => c ≠ a)⟩

/-- Python's `str.strip()`. -/
def pyStrip (s : String) : String :=
  ⟨((s.data.dropWhile Char.isWhitespace).reverse.dropWhile Char.isWhitespace).reverse⟩

/-! ### sync.py: run_command (lines 15-26) -/

/-- Result of `subprocess.run(cmd, shell=True, capture_output=True, text=True)`. -/
structure CmdResult where
  returncode : Int
  stdout : String
  stderr : String
deriving Repr, DecidableEq

/-- Value returned by `run_command`: a Bool when `capture=False`, the stdout
string when `capture=True`. -/
inductive RunRet where
  | bool (b : Bool)
  | str (s : String)
deriving Repr, DecidableEq

/-- Embedding of `run_command` from sync.py.  `res = none` models
`subprocess.run` itself raising (the `except Exception` branch).
Returns the warning text printed (if any) paired with the returned value;
the function is total, so the script is never aborted by a failing command. -/
def run_command (res : Option CmdResult) (capture : Bool) : Option String × RunRet :=
  match res with
  | none => (some "error", if capture then .str "" else .bool false)
  | some r =>
    if r.returncode ≠ 0 ∧ ¬ (strContains r.stdout "nothing to commit" = true) then
      (some (if pyStrip r.stderr ≠ "" then pyStrip r.stderr else pyStrip r.stdout),
       if capture then .str r.stdout else .bool false)
    else
      (none, if capture then .str r.stdout else .bool true)

/-! ### sync.py: generate_qr_codes (lines 83-128)

The code lists `qr-codes/*.png`, takes their stems
(`existing = set(f.stem for f in qr_dir.glob('*.png'))`), computes
`removed_tokens = existing - needed`, and for each removed stem deletes
`qr-codes/{stem}.png`; it then (re)creates `{id}.png` for every token id.
We represent the directory by the list of stems of its `.png` files
(`Path.stem` strips the `.png` suffix, so stem `s` stands for file
`s ++ ".png"`). -/

/-- `removed_tokens = existing - needed`: the stems scheduled for deletion. -/
def syncRemovedStems (tokens stems : List String) : List String :=
  stems.filter (fun s => decide (s ∉ tokens))

/-- The file names actually unlinked: `qr_dir / f"{token_id}.png"` for each
removed stem. -/
def syncDeletedFiles (tokens stems : List String) : List String :=
  (syncRemovedStems tokens stems).map (fun s => s ++ ".png")

/-- Directory contents (as stems) after the regeneration loop: surviving
stems plus a freshly written `{id}.png` for every token id. -/
def syncFinalStems (tokens stems : List String) : List String :=
  stems.filter (fun s => decide (s ∈ tokens)) ++ tokens.filter (fun t => decide (t ∉ stems))

/-! ### Token data

One JSON object per token id.  `Option` models an absent field; for `audio`,
which the scripts may set to JSON `null`, `some none` models an explicit null
and `some (some p)` a path. -/

structure TokenData where
  SF_MemoryType : Option String := none
  SF_Group : Option String := none
  SF_ValueRating : Option Nat := none
  title : Option String := none
  image : Option String := none
  audio : Option (Option String) := none
deriving Repr, DecidableEq

/-- `d.get('SF_MemoryType', 'Unknown')`. -/
def memoryTypeOf (d : TokenData) : String := d.SF_MemoryType.getD "Unknown"

/-- `colors.get(key, default)` on a Python dict literal, embedded as an
association list in the dict's insertion order. -/
def colorsGet (tbl : List (String × (Nat × Nat × Nat))) (k : String)
    (dflt : Nat × Nat × Nat) : Nat × Nat × Nat :=
  match tbl.lookup k with
  | some c => c
  | none => dflt

/-! ### convert-arduino-assets.py: candidate image search (lines 47-107) -/

/-- `possible_names` for a token id: `[token_id, token_id.upper(),
token_id.lower(), token_id.replace('_', ''), token_id.replace(':', ''),
token_id.replace(':', '_')]`. -/
def possibleNames (id : String) : List String :=
  [id, pyUpper id, pyLower id,
   pyRemoveChar id '_', pyRemoveChar id ':', pyReplaceChar id ':' '_']

/-- `bmp_paths` tried for one candidate name, in source order. -/
def bmpCandidates (proj name : String) : List String :=
  ["assets/images/" ++ name ++ ".BMP",
   "assets/images/" ++ name ++ ".bmp",
   proj ++ "/images/" ++ name ++ ".BMP",
   proj ++ "/images/" ++ name ++ ".bmp",
   proj ++ "/" ++ name ++ ".BMP",
   proj ++ "/" ++ name ++ ".bmp",
   proj ++ "/SD_Card/" ++ name ++ ".BMP",
   proj ++ "/SD_Card/" ++ name ++ ".bmp"]

/-- All candidate paths in search order: the outer loop runs over
`possible_names`, the inner loop over `bmp_paths`, and both break at the
first existing path. -/
def imageCandidatePaths (proj id : String) : List String :=
  (possibleNames id).flatMap (bmpCandidates proj)

/-- The doubly-nested search loop with its two `break`s: the first existing
candidate path, if any.  `ex` is `os.path.exists`. -/
def findImageSource (ex : String → Bool) (proj id : String) : Option String :=
  (imageCandidatePaths proj id).find? ex

/-! ### convert-arduino-assets.py: per-token image outcome and placeholders -/

/-- `assets/images/{token_id}.jpg`. -/
def imagePathOf (id : String) : String := "assets/images/" ++ id ++ ".jpg"

/-- `assets/audio/{token_id}.mp3`. -/
def audioPathOf (id : String) : String := "assets/audio/" ++ id ++ ".mp3"

/-- What the image loop does to a single token.  `convertOk p` tells whether
the PIL open/convert/thumbnail/save sequence on source `p` runs without an
exception (the `try`/`except` around it catches and logs any failure).
A found source sets `source_found = True` before conversion is attempted. -/
inductive ImgOutcome where
  | convertedOk
  | convertError
  | noSource
deriving Repr, DecidableEq

def tokenImageOutcome (ex convertOk : String → Bool) (proj id : String) : ImgOutcome :=
  match findImageSource ex proj id with
  | some p => if convertOk p then .convertedOk else .convertError
  | none => .noSource

/-- `missing_images`: the ids appended when the search found no source
(`if not source_found`), regardless of whether conversion later failed. -/
def converterMissingImages (ex : String → Bool) (proj : String)
    (ids : List String) : List String :=
  ids.filter (fun id => (findImageSource ex proj id).isNone)

/-- colors dict of the placeholder loop in convert-arduino-assets.py. -/
def converterColors : List (String × (Nat × Nat × Nat)) :=
  [("Personal", (79, 189, 186)),
   ("Technical", (126, 200, 227)),
   ("Business", (231, 76, 60)),
   ("Military", (149, 165, 166)),
   ("Intelligence", (44, 62, 80)),
   ("Test", (100, 100, 100))]

/-- A PIL image as the scripts build one: `Image.new('RGB', (w, h), color)`
plus the `draw.text` calls applied to it. -/
structure PILImage where
  width : Nat
  height : Nat
  fill : Nat × Nat × Nat
  texts : List (Nat × Nat × String)
deriving Repr, DecidableEq

/-- A file written by `img.save(path, format, quality=q)`. -/
structure SavedImage where
  path : String
  format : String
  quality : Nat
  image : PILImage
deriving Repr, DecidableEq

/-- Placeholder built for one missing token:
`Image.new('RGB', (800, 800), color=colors.get(memory_type, (136,136,136)))`
with `draw.text((400, 400), token_id, ...)`, saved as JPEG quality 85. -/
def converterPlaceholderFile (id : String) (d : TokenData) : SavedImage :=
  { path := imagePathOf id
    format := "JPEG"
    quality := 85
    image := { width := 800, height := 800
               fill := colorsGet converterColors (memoryTypeOf d) (136, 136, 136)
               texts := [(400, 400, id)] } }

/-- Ids the placeholder loop actually creates a file for: missing ids whose
target jpg does not already exist (`if os.path.exists(output_path): continue`;
the `if token_id not in tokens: continue` guard is handled by the lookup in
`converterPlaceholderFiles`). -/
def converterPlaceholderIds (ex : String → Bool) (proj : String)
    (ids : List String) : List String :=
  (converterMissingImages ex proj ids).filter (fun id => !(ex (imagePathOf id)))

/-- The placeholder files written by the loop over `missing_images`. -/
def converterPlaceholderFiles (ex : String → Bool) (proj : String)
    (tokens : List (String × TokenData)) : List SavedImage :=
  (converterPlaceholderIds ex proj (tokens.map Prod.fst)).filterMap
    (fun id => (tokens.lookup id).map (fun d => converterPlaceholderFile id d))

/-- Conversion summary as printed: `Images converted: {converted_images}` and
`Placeholders created: {len(missing_images)}`. -/
structure ConvSummary where
  convertedImages : Nat
  placeholdersPrinted : Nat
deriving Repr, DecidableEq

def converterSummary (ex convertOk : String → Bool) (proj : String)
    (ids : List String) : ConvSummary :=
  { convertedImages :=
      (ids.filter
        (fun id => tokenImageOutcome ex convertOk proj id == ImgOutcome.convertedOk)).length
    placeholdersPrinted := (converterMissingImages ex proj ids).length }

/-- Number of placeholder files the loop actually writes. -/
def converterPlaceholdersCreatedCount (ex : String → Bool) (proj : String)
    (ids : List String) : Nat :=
  (converterPlaceholderIds ex proj ids).length

/-! ### convert-arduino-assets.py: tokens.json rewrite (lines 224-244; the
scripts/ variant's loop at lines 200-221 is textually identical) -/

/-- The per-token body of the final update loop: set `image` only when
`assets/images/{id}.jpg` exists (otherwise the field is left as it was),
and set `audio` to the mp3 path when it exists, else to JSON null. -/
def updateTokenAssets (ex : String → Bool) (id : String) (d : TokenData) : TokenData :=
  let d1 := if ex (imagePathOf id) then { d with image := some (imagePathOf id) } else d
  if ex (audioPathOf id) then { d1 with audio := some (some (audioPathOf id)) }
  else { d1 with audio := some none }

/-- The whole rewrite of tokens.json. -/
def updateTokensFile (ex : String → Bool)
    (tokens : List (String × TokenData)) : List (String × TokenData) :=
  tokens.map (fun p => (p.1, updateTokenAssets ex p.1 p.2))

/-! ### convert-arduino-assets.py: run-level control flow (lines 30-37)

`open(TOKENS_FILE)` raises `FileNotFoundError` when the file is absent,
which is caught and answered with `exit(1)`; `json.load` raises
`json.JSONDecodeError` on malformed content, which the `except
FileNotFoundError` clause does not catch, so it propagates and kills the
run.  `parsed = none` models an unparseable file.  Every later per-item
step is either wrapped in `try`/`except Exception` or checked via an exit
code, so once the tokens parse the run completes. -/

inductive RunOutcome where
  | completed
  | earlyExit
  | crashed
deriving Repr, DecidableEq

def converterRun (tokensFileExists : Bool)
    (parsed : Option (List (String × TokenData))) : RunOutcome :=
  if tokensFileExists then
    match parsed with
    | some _ => RunOutcome.completed
    | none => RunOutcome.crashed
  else RunOutcome.earlyExit

/-! ### generate-qr.py and sync.py: QR construction

`qrcode.QRCode(version=1, error_correction=ERROR_CORRECT_H, box_size=10,
border=4)` followed by `qr.add_data(token_id)`, `qr.make(fit=True)`,
`qr.make_image(fill_color=…, back_color=…)`.  The library encodes exactly
the accumulated data segments into the symbol; we model the symbol by the
payload it decodes to plus its colors. -/

inductive Color where
  | named (s : String)
  | rgb (c : Nat × Nat × Nat)
deriving Repr, DecidableEq

structure QRCodeState where
  version : Nat
  errorCorrection : String
  boxSize : Nat
  border : Nat
  dataSegments : List String
deriving Repr, DecidableEq

/-- `qrcode.QRCode(version=1, error_correction=ERROR_CORRECT_H, box_size=10,
border=4)`: fresh state, empty data buffer. -/
def mkQRCode : QRCodeState :=
  { version := 1, errorCorrection := "H", boxSize := 10, border := 4
    dataSegments := [] }

/-- `qr.add_data(s)` appends a segment to the data buffer. -/
def QRCodeState.addData (q : QRCodeState) (s : String) : QRCodeState :=
  { q with dataSegments := q.dataSegments ++ [s] }

/-- The byte payload the built symbol encodes: the concatenation of the
added segments. -/
def QRCodeState.payload (q : QRCodeState) : String :=
  q.dataSegments.foldl (fun a b => a ++ b) ""

structure QRImage where
  payload : String
  fill : Color
  back : Color
deriving Repr, DecidableEq

def QRCodeState.makeImage (q : QRCodeState) (fill back : Color) : QRImage :=
  { payload := q.payload, fill := fill, back := back }

/-- What a scanner reads back from a generated symbol. -/
def decodeQR (img : QRImage) : String := img.payload

/-- generate-qr.py `generate_simple_qr`, per-token body (lines 36-57). -/
def generate_simple_qr_image (id : String) : QRImage :=
  (mkQRCode.addData id).makeImage (Color.named "black") (Color.named "white")

/-- Labeled variant: the QR image pasted into a taller canvas with a white
footer band carrying the id line, the type line, and the star-rating string
(`'⭐' * SF_ValueRating`). -/
structure LabeledImage where
  qr : QRImage
  footer : List String
deriving Repr, DecidableEq

/-- `'⭐' * n`. -/
def starRepeat (n : Nat) : String := String.join (List.replicate n "⭐")

/-- generate-qr.py `generate_labeled_qr`, per-token body. -/
def generate_labeled_qr_image (id : String) (d : TokenData) : LabeledImage :=
  { qr := (mkQRCode.addData id).makeImage (Color.named "black") (Color.named "white")
    footer := ["ID: " ++ id,
               "Type: " ++ memoryTypeOf d,
               starRepeat (d.SF_ValueRating.getD 0)] }

/-- colors dict of `generate_color_qr`. -/
def qrColors : List (String × (Nat × Nat × Nat)) :=
  [("Personal", (79, 189, 186)),
   ("Technical", (126, 200, 227)),
   ("Business", (231, 76, 60)),
   ("Military", (149, 165, 166)),
   ("Intelligence", (44, 62, 80)),
   ("Test", (136, 136, 136)),
   ("Classified", (20, 20, 40))]

/-- generate-qr.py `generate_color_qr`, per-token body: fill color from the
memory type, default black, white background. -/
def generate_color_qr_image (id : String) (d : TokenData) : QRImage :=
  (mkQRCode.addData id).makeImage
    (Color.rgb (colorsGet qrColors (memoryTypeOf d) (0, 0, 0)))
    (Color.named "white")

/-- sync.py `generate_qr_codes`, per-token QR construction (lines 103-118). -/
def sync_qr_image (id : String) : QRImage :=
  (mkQRCode.addData id).makeImage (Color.named "black") (Color.named "white")

/-! ### create_placeholders.py: main loop (C7) -/

/-- colors dict of create_placeholders.py. -/
def placeholderColors : List (String × (Nat × Nat × Nat)) :=
  [("Personal", (79, 189, 186)),
   ("Technical", (126, 200, 227)),
   ("Business", (231, 76, 60)),
   ("Military", (149, 165, 166)),
   ("Intelligence", (44, 62, 80)),
   ("Test", (136, 136, 136)),
   ("Classified", (20, 20, 40))]

/-- The `for token_id, token_data in tokens.items()` loop, threading the
set of files on disk (`files`) and the `created_count` / `skipped_count`
counters.  A token whose `assets/images/{id}.jpg` already exists is skipped
and nothing on disk changes for it; otherwise the placeholder is written. -/
def phLoop : List String → List String → Nat → Nat → List String × Nat × Nat
  | [], files, created, skipped => (files, created, skipped)
  | id :: rest, files, created, skipped =>
    if imagePathOf id ∈ files then
      phLoop rest files created (skipped + 1)
    else
      phLoop rest (files ++ [imagePathOf id]) (created + 1) skipped

/-- The whole script run on a directory state: the token loop, then the
generic `assets/images/placeholder.jpg` (also guarded by an existence
check).  Returns the final file list, `created_count`, `skipped_count`. -/
def create_placeholders_run (ids : List String) (files : List String) :
    List String × Nat × Nat :=
  let r := phLoop ids files 0 0
  if "assets/images/placeholder.jpg" ∈ r.1 then r
  else (r.1 ++ ["assets/images/placeholder.jpg"], r.2)

/-! ### create_placeholders.py: word wrap (lines 84-102, C8) -/

/-- `' '.join(ws)`. -/
def joinSp (ws : List String) : String := String.intercalate " " ws

/-- Helper for `pySplit`: `acc` accumulates the current word reversed. -/
def pySplitChars : List Char → List Char → List String
  | [], acc => if acc.isEmpty then [] else [String.mk acc.reverse]
  | c :: cs, acc =>
    if c.isWhitespace then
      if acc.isEmpty then pySplitChars cs []
      else String.mk acc.reverse :: pySplitChars cs []
    else pySplitChars cs (c :: acc)

/-- `title.split()`: split on whitespace runs, dropping empty pieces. -/
def pySplit (s : String) : List String := pySplitChars s.data []

/-- The wrap loop.  `cur` is `current_line` (a list of words); a line is
emitted either when `len(' '.join(current_line + [w])) > 20` (popping the
new word back off unless it is alone on the line) or by the final
`if current_line: lines.append(...)` flush.  Lines are returned as word
lists; the script stores `' '.join(line)`. -/
def wrapWords : List String → List String → List (List String)
  | [], cur => if cur.isEmpty then [] else [cur]
  | w :: ws, cur =>
    let cur1 := cur ++ [w]
    if (joinSp cur1).length > 20 then
      if cur1.length > 1 then
        cur :: wrapWords ws [w]
      else
        cur1 :: wrapWords ws []
    else
      wrapWords ws cur1

/-- The emitted line strings for a title, as drawn on the canvas. -/
def wrapTitle (title : String) : List String :=
  (wrapWords (pySplit title) []).map joinSp

/-! ## Theorems -/

/-- C1, counterexample: token `a` is still present in the table, yet the
regeneration deletes `a_labeled.png` — the labeled variant (as produced by
generate-qr.py) of a still-present token — because its stem `a_labeled` is
not a token id. -/
theorem sync_qr_deletes_labeled_variant_of_present_token :
    "a" ∈ (["a"] : List String) ∧
    "a_labeled.png" ∈ syncDeletedFiles ["a"] ["a", "a_labeled"] := by
  decide

/-- C1, amended: the QR regeneration of sync.py deletes exactly the `.png`
files whose stem is not a token id: the plain file of every removed token id
is deleted; the plain `<id>.png` of a still-present token is never deleted
(and survives into the final directory); but a labeled (or colored) variant
file of a still-present token, whose stem is itself not a token id, is also
deleted. -/
theorem sync_qr_delete_stale_stems (tokens stems : List String) :
    (∀ s ∈ stems, s ∉ tokens → s ∈ syncRemovedStems tokens stems) ∧
    (∀ t ∈ tokens, t ∉ syncRemovedStems tokens stems) ∧
    (∀ s ∈ syncRemovedStems tokens stems, s ∈ stems ∧ s ∉ tokens) ∧
    (∀ t ∈ tokens, t ∈ syncFinalStems tokens stems) := by
  refine ⟨?_, ?_, ?_, ?_⟩
  · intro s hs hns
    simp [syncRemovedStems, List.mem_filter, hs, hns]
  · intro t ht
    simp [syncRemovedStems, List.mem_filter, ht]
  · intro s hs
    simpa [syncRemovedStems, List.mem_filter] using hs
  · intro t ht
    by_cases h : t ∈ stems
    · exact List.mem_append.mpr (Or.inl (List.mem_filter.mpr ⟨h, by simp [ht]⟩))
    · exact List.mem_append.mpr (Or.inr (List.mem_filter.mpr ⟨ht, by simp [h]⟩))

/-- Witness for `sync_qr_delete_stale_stems` at a concrete table and
directory. -/
theorem sync_qr_delete_stale_stems_witness :
    "b" ∈ syncRemovedStems ["a"] ["a", "b"] ∧
    "a" ∉ syncRemovedStems ["a"] ["a", "b"] := by
  constructor
  · exact (sync_qr_delete_stale_stems ["a"] ["a", "b"]).1 "b" (by decide) (by decide)
  · exact (sync_qr_delete_stale_stems ["a"] ["a", "b"]).2.1 "a" (by decide)

/-- C2, counterexample: a token whose JSON already carries
`image: "ghost.jpg"` keeps that value after the rewrite even though no file
exists at all, so the rewritten `image` field can point at a nonexistent
path. -/
theorem update_tokens_keeps_stale_image_path :
    (updateTokenAssets (fun _ => false) "memory_001"
        { image := some "ghost.jpg" }).image = some "ghost.jpg" ∧
    (fun _ => false : String → Bool) "ghost.jpg" = false := by
  exact ⟨rfl, rfl⟩

/-- C2, amended: the rewrite never fabricates a nonexistent `image` path —
it sets `image` exactly when `assets/images/<id>.jpg` exists and otherwise
leaves the field as it was (so a pre-existing stale value survives); and
`audio` is set to JSON null exactly when `assets/audio/<id>.mp3` does not
exist, to the mp3 path when it does. -/
theorem update_tokens_image_audio_fields (ex : String → Bool) (id : String)
    (d : TokenData) :
    (ex (imagePathOf id) = true →
      (updateTokenAssets ex id d).image = some (imagePathOf id)) ∧
    (ex (imagePathOf id) = false →
      (updateTokenAssets ex id d).image = d.image) ∧
    (ex (audioPathOf id) = false →
      (updateTokenAssets ex id d).audio = some none) ∧
    (ex (audioPathOf id) = true →
      (updateTokenAssets ex id d).audio = some (some (audioPathOf id))) := by
  refine ⟨?_, ?_, ?_, ?_⟩ <;> intro h <;>
    by_cases ha : ex (audioPathOf id) <;>
      simp [updateTokenAssets, h, ha]

/-- Witness for `update_tokens_image_audio_fields`. -/
theorem update_tokens_image_audio_fields_witness :
    (updateTokenAssets (fun s => s == "assets/images/t.jpg") "t"
        { }).image = some "assets/images/t.jpg" ∧
    (updateTokenAssets (fun _ => false) "t" { }).audio = some none := by
  constructor
  · exact (update_tokens_image_audio_fields (fun s => s == "assets/images/t.jpg")
      "t" { }).1 (by decide)
  · exact (update_tokens_image_audio_fields (fun _ => false) "t" { }).2.2.1 rfl

/-- C10: `run_command` treats a nonzero exit whose stdout contains
`nothing to commit` as success (no warning printed, `True`/stdout
returned); any other nonzero exit prints the stripped stderr (or, when that
is empty, the stripped stdout) and reports failure, returning the captured
stdout when `capture=True`; an exception from `subprocess.run` is caught,
so no command ever aborts the run. -/
theorem run_command_report (r : CmdResult) (capture : Bool) :
    (r.returncode ≠ 0 → strContains r.stdout "nothing to commit" = true →
      run_command (some r) capture
        = (none, if capture then RunRet.str r.stdout else RunRet.bool true)) ∧
    (r.returncode ≠ 0 → strContains r.stdout "nothing to commit" = false →
      run_command (some r) capture
        = (some (if pyStrip r.stderr ≠ "" then pyStrip r.stderr else pyStrip r.stdout),
           if capture then RunRet.str r.stdout else RunRet.bool false)) ∧
    (run_command none capture
        = (some "error", if capture then RunRet.str "" else RunRet.bool false)) := by
  refine ⟨?_, ?_, rfl⟩
  · intro h1 h2
    simp [run_command, h2]
  · intro h1 h2
    simp [run_command, h1, h2]

/-- Witness for `run_command_report`: a failed `git commit` with
"nothing to commit" in its output is reported as success; a genuinely
failing command is reported as failure with its stderr printed. -/
theorem run_command_report_witness :
    run_command (some ⟨1, "On branch main nothing to commit, working tree clean", ""⟩) false
      = (none, RunRet.bool true) ∧
    run_command (some ⟨1, "", "boom"⟩) true = (some "boom", RunRet.str "") := by
  constructor
  · exact (run_command_report
      ⟨1, "On branch main nothing to commit, working tree clean", ""⟩ false).1
      (by decide) (by decide)
  · exact (run_command_report ⟨1, "", "boom"⟩ true).2.1 (by decide) (by decide)

/-- A successful `tokens[token_id]` lookup means the id is among the keys. -/
theorem mem_keys_of_lookup {l : List (String × TokenData)} {k : String}
    {v : TokenData} (h : l.lookup k = some v) : k ∈ l.map Prod.fst := by
  induction l with
  | nil => simp [List.lookup] at h
  | cons p rest ih =>
    obtain ⟨a, b⟩ := p
    by_cases hk : k == a
    · simp [eq_of_beq hk]
    · simp [List.lookup, hk] at h
      simp [ih h]

/-- C3: a token `memory_001` with `SF_MemoryType = "Military"`, no source
BMP at any candidate location and no pre-existing output jpg gets the
placeholder `Image.new('RGB', (800, 800), (149, 165, 166))` with the
literal token id `memory_001` drawn on it, saved as a quality-85 JPEG at
`assets/images/memory_001.jpg` — and that file is among the files the
placeholder loop writes. -/
theorem converter_military_placeholder (ex : String → Bool) (proj : String)
    (tokens : List (String × TokenData)) (d : TokenData)
    (hlk : tokens.lookup "memory_001" = some d)
    (hmt : d.SF_MemoryType = some "Military")
    (hsrc : findImageSource ex proj "memory_001" = none)
    (hout : ex (imagePathOf "memory_001") = false) :
    converterPlaceholderFile "memory_001" d =
      { path := "assets/images/memory_001.jpg", format := "JPEG", quality := 85,
        image := { width := 800, height := 800, fill := (149, 165, 166),
                   texts := [(400, 400, "memory_001")] } } ∧
    converterPlaceholderFile "memory_001" d ∈
      converterPlaceholderFiles ex proj tokens := by
  constructor
  · simp [converterPlaceholderFile, memoryTypeOf, hmt, imagePathOf]
    decide
  · refine List.mem_filterMap.mpr ⟨"memory_001", ?_, by rw [hlk]; rfl⟩
    refine List.mem_filter.mpr ⟨?_, by simp [hout]⟩
    exact List.mem_filter.mpr ⟨mem_keys_of_lookup hlk, by simp [hsrc]⟩

/-- Witness for `converter_military_placeholder`: a one-token table and an
empty filesystem. -/
theorem converter_military_placeholder_witness :
    converterPlaceholderFile "memory_001" { SF_MemoryType := some "Military" } ∈
      converterPlaceholderFiles (fun _ => false) "./arduino-project"
        [("memory_001", { SF_MemoryType := some "Military" })] := by
  exact (converter_military_placeholder (fun _ => false) "./arduino-project"
    [("memory_001", { SF_MemoryType := some "Military" })]
    { SF_MemoryType := some "Military" }
    (by decide) rfl (by decide) rfl).2

/-- C4: the image search tries the candidate spellings (outer loop) against
the candidate directories (inner loop) and the first existing path in that
order wins and stops the search: a found path is existing and everything
before it in `imageCandidatePaths` does not exist; if nothing is found, no
candidate exists; and in particular, when the original spelling exists in
the first directory (`assets/images/`), that path is the result no matter
what else exists. -/
theorem converter_first_match_search (ex : String → Bool) (proj id : String) :
    (∀ p, findImageSource ex proj id = some p →
      ex p = true ∧ ∃ pre post, imageCandidatePaths proj id = pre ++ p :: post ∧
        ∀ q ∈ pre, ex q = false) ∧
    (findImageSource ex proj id = none →
      ∀ q ∈ imageCandidatePaths proj id, ex q = false) ∧
    (ex ("assets/images/" ++ id ++ ".BMP") = true →
      findImageSource ex proj id = some ("assets/images/" ++ id ++ ".BMP")) := by
  refine ⟨?_, ?_, ?_⟩
  · intro p hp
    obtain ⟨hpx, pre, post, heq, hall⟩ := List.find?_eq_some.mp hp
    refine ⟨hpx, pre, post, heq, fun q hq => ?_⟩
    simpa using hall q hq
  · intro h q hq
    simpa using List.find?_eq_none.mp h q hq
  · intro h
    simp [findImageSource, imageCandidatePaths, possibleNames, bmpCandidates,
      List.find?, h]

/-- Witness for `converter_first_match_search`: with every path existing,
the very first candidate — original spelling in `assets/images/` — wins. -/
theorem converter_first_match_search_witness :
    findImageSource (fun _ => true) "./arduino-project" "t"
      = some "assets/images/t.BMP" := by
  exact (converter_first_match_search (fun _ => true) "./arduino-project" "t").2.2 rfl

/-- C5: in all three generate-qr.py modes and in sync.py's regeneration,
the only data added to the QR symbol is the token id itself, so the decoded
payload of any generated code for a token equals that token id exactly. -/
theorem qr_payload_roundtrip (id : String) (d : TokenData) :
    decodeQR (generate_simple_qr_image id) = id ∧
    decodeQR (generate_labeled_qr_image id d).qr = id ∧
    decodeQR (generate_color_qr_image id d) = id ∧
    decodeQR (sync_qr_image id) = id := by
  refine ⟨?_, ?_, ?_, ?_⟩ <;>
    simp [decodeQR, generate_simple_qr_image, generate_labeled_qr_image,
      generate_color_qr_image, sync_qr_image, QRCodeState.makeImage,
      QRCodeState.payload, QRCodeState.addData, mkQRCode]

/-- Each processed token falls in exactly one image-outcome class. -/
theorem outcome_partition {α : Type} (f : α → ImgOutcome) (l : List α) :
    (l.filter (fun a => f a == ImgOutcome.convertedOk)).length
      + (l.filter (fun a => f a == ImgOutcome.convertError)).length
      + (l.filter (fun a => f a == ImgOutcome.noSource)).length = l.length := by
  induction l with
  | nil => rfl
  | cons a t ih =>
    cases h : f a <;> simp [List.filter_cons, h] <;> omega

/-- C6, counterexample: with the token database file present but
unparseable, the run is terminated (by the uncaught `json.JSONDecodeError`),
not by the early exit reserved for the absent-file case — so "terminates
only when the token database file is absent" is false. -/
theorem converter_crashes_on_malformed_tokens :
    converterRun true none = RunOutcome.crashed ∧
    converterRun true none ≠ RunOutcome.earlyExit ∧
    converterRun true none ≠ RunOutcome.completed := by
  decide

/-- C6, amended: the converter exits early exactly when the token database
file is absent; it additionally dies when the file is present but not valid
JSON (only `FileNotFoundError` is caught); once the tokens parse, the run
always completes — every token is processed to exactly one of the three
per-item outcomes (converted, conversion error logged and skipped, no
source), so no per-item failure aborts the run. -/
theorem converter_run_termination :
    (∀ parsed, converterRun false parsed = RunOutcome.earlyExit) ∧
    (∀ ts, converterRun true (some ts) = RunOutcome.completed) ∧
    (∀ (ex convertOk : String → Bool) (proj : String) (ids : List String),
      (ids.filter
          (fun id => tokenImageOutcome ex convertOk proj id == ImgOutcome.convertedOk)).length
        + (ids.filter
          (fun id => tokenImageOutcome ex convertOk proj id == ImgOutcome.convertError)).length
        + (ids.filter
          (fun id => tokenImageOutcome ex convertOk proj id == ImgOutcome.noSource)).length
        = ids.length) := by
  refine ⟨fun _ => rfl, fun _ => rfl, ?_⟩
  intro ex convertOk proj ids
  exact outcome_partition (tokenImageOutcome ex convertOk proj) ids

/-- C9: a token whose source BMP is found but whose conversion fails is not
in `missing_images` (it was marked found before the `try`), is classified
as a logged conversion error (so no converted JPEG is saved for it), and is
not among the ids the placeholder loop writes; and the printed
`Placeholders created` figure is the number of tokens with no source found,
an overcount of the files actually created (which excludes targets that
already existed). -/
theorem converter_found_but_failed_accounting (ex convertOk : String → Bool)
    (proj : String) (ids : List String) (id p : String)
    (hfound : findImageSource ex proj id = some p)
    (hfail : convertOk p = false) :
    tokenImageOutcome ex convertOk proj id = ImgOutcome.convertError ∧
    id ∉ converterMissingImages ex proj ids ∧
    id ∉ converterPlaceholderIds ex proj ids ∧
    (converterSummary ex convertOk proj ids).placeholdersPrinted
      = (ids.filter
          (fun i => tokenImageOutcome ex convertOk proj i == ImgOutcome.noSource)).length ∧
    converterPlaceholdersCreatedCount ex proj ids
      ≤ (converterSummary ex convertOk proj ids).placeholdersPrinted := by
  have hmiss : id ∉ converterMissingImages ex proj ids := by
    simp [converterMissingImages, List.mem_filter, hfound]
  refine ⟨by simp [tokenImageOutcome, hfound, hfail], hmiss, ?_, ?_, ?_⟩
  · intro hmem
    exact hmiss (List.mem_filter.mp hmem).1
  · show (converterMissingImages ex proj ids).length = _
    congr 1
    refine List.filter_congr fun i _ => ?_
    cases hi : findImageSource ex proj i with
    | none => simp [tokenImageOutcome, hi]
    | some q => cases hc : convertOk q <;> simp [tokenImageOutcome, hi, hc]
  · exact List.length_filter_le _ (converterMissingImages ex proj ids)

/-- Witness for `converter_found_but_failed_accounting`; the last two
conjuncts also exhibit a run where the printed count (1) differs from the
files created (0) because the target jpg already existed. -/
theorem converter_found_but_failed_accounting_witness :
    "t" ∉ converterMissingImages (fun _ => true) "ap" ["t"] ∧
    converterPlaceholdersCreatedCount (fun s => s == "assets/images/t.jpg") "ap" ["t"] = 0 ∧
    (converterSummary (fun s => s == "assets/images/t.jpg") (fun _ => false)
        "ap" ["t"]).placeholdersPrinted = 1 := by
  refine ⟨?_, by decide, by decide⟩
  exact (converter_found_but_failed_accounting (fun _ => true) (fun _ => false)
    "ap" ["t"] "t" "assets/images/t.BMP" (by decide) rfl).2.1

/-- Files already on disk survive the placeholder loop. -/
theorem phLoop_mem_preserved :
    ∀ (ids files : List String) (c s : Nat) (x : String),
      x ∈ files → x ∈ (phLoop ids files c s).1 := by
  intro ids
  induction ids with
  | nil => intro files c s x hx; simpa [phLoop] using hx
  | cons id rest ih =>
    intro files c s x hx
    by_cases h : imagePathOf id ∈ files
    · simp only [phLoop]
      rw [if_pos h]
      exact ih files c (s + 1) x hx
    · simp only [phLoop]
      rw [if_neg h]
      exact ih _ (c + 1) s x (List.mem_append.mpr (Or.inl hx))

/-- After the loop, every token's target file is on disk. -/
theorem phLoop_creates :
    ∀ (ids files : List String) (c s : Nat),
      ∀ id ∈ ids, imagePathOf id ∈ (phLoop ids files c s).1 := by
  intro ids
  induction ids with
  | nil => simp
  | cons a rest ih =>
    intro files c s id hid
    rcases List.mem_cons.mp hid with h1 | h2
    · subst h1
      by_cases h : imagePathOf id ∈ files
      · simp only [phLoop]
        rw [if_pos h]
        exact phLoop_mem_preserved rest files c (s + 1) _ h
      · simp only [phLoop]
        rw [if_neg h]
        exact phLoop_mem_preserved rest _ (c + 1) s _ (by simp)
    · by_cases h : imagePathOf a ∈ files
      · simp only [phLoop]
        rw [if_pos h]
        exact ih files c (s + 1) id h2
      · simp only [phLoop]
        rw [if_neg h]
        exact ih _ (c + 1) s id h2

/-- When every target already exists, the loop changes nothing and only the
skip counter advances. -/
theorem phLoop_all_present :
    ∀ (ids files : List String) (c s : Nat),
      (∀ id ∈ ids, imagePathOf id ∈ files) →
      phLoop ids files c s = (files, c, s + ids.length) := by
  intro ids
  induction ids with
  | nil => intro files c s _; simp [phLoop]
  | cons a rest ih =>
    intro files c s hall
    have ha : imagePathOf a ∈ files := hall a (by simp)
    simp only [phLoop]
    rw [if_pos ha, ih files c (s + 1) (fun id hid => hall id (by simp [hid]))]
    simp only [Prod.mk.injEq, List.length_cons, true_and]
    omega

/-- A run on a directory that already holds every target file and the
generic placeholder leaves the directory unchanged and creates nothing. -/
theorem create_placeholders_run_stable (ids F : List String)
    (hall : ∀ id ∈ ids, imagePathOf id ∈ F)
    (hph : "assets/images/placeholder.jpg" ∈ F) :
    create_placeholders_run ids F = (F, 0, 0 + ids.length) := by
  unfold create_placeholders_run
  rw [phLoop_all_present ids F 0 0 hall]
  simp [hph]

/-- C7: the placeholder generator skips a token whose target file already
exists, leaving the directory state untouched for it; consequently running
the whole script a second time on an unchanged token set changes no file
and creates zero images. -/
theorem create_placeholders_idempotent (ids files : List String) :
    (∀ id rest c s, imagePathOf id ∈ files →
      phLoop (id :: rest) files c s = phLoop rest files c (s + 1)) ∧
    (create_placeholders_run ids (create_placeholders_run ids files).1).1
        = (create_placeholders_run ids files).1 ∧
    (create_placeholders_run ids (create_placeholders_run ids files).1).2.1 = 0 := by
  have hall : ∀ id ∈ ids, imagePathOf id ∈ (create_placeholders_run ids files).1 := by
    intro id hid
    have h1 : imagePathOf id ∈ (phLoop ids files 0 0).1 :=
      phLoop_creates ids files 0 0 id hid
    unfold create_placeholders_run
    by_cases hp : "assets/images/placeholder.jpg" ∈ (phLoop ids files 0 0).1
    · simpa [hp] using h1
    · simp only [hp, if_neg]
      simpa using Or.inl h1
  have hph : "assets/images/placeholder.jpg" ∈ (create_placeholders_run ids files).1 := by
    unfold create_placeholders_run
    by_cases hp : "assets/images/placeholder.jpg" ∈ (phLoop ids files 0 0).1
    · simp [hp]
    · simp [hp]
  refine ⟨?_, ?_, ?_⟩
  · intro id rest c s h
    simp only [phLoop]
    rw [if_pos h]
  · rw [create_placeholders_run_stable ids (create_placeholders_run ids files).1 hall hph]
  · rw [create_placeholders_run_stable ids (create_placeholders_run ids files).1 hall hph]

/-- Witness for `create_placeholders_idempotent`: one token whose jpg is
already on disk — nothing is created, one skip is counted. -/
theorem create_placeholders_idempotent_witness :
    phLoop ["t"] ["assets/images/t.jpg"] 0 0 = (["assets/images/t.jpg"], 0, 1) := by
  exact (create_placeholders_idempotent ["t"] ["assets/images/t.jpg"]).1
    "t" [] 0 0 (by decide)

/-- The wrap loop loses no word and keeps their order: the concatenation of
the emitted lines is the pending line followed by the remaining words. -/
theorem wrapWords_flatten :
    ∀ (ws cur : List String), (wrapWords ws cur).flatten = cur ++ ws := by
  intro ws
  induction ws with
  | nil =>
    intro cur
    by_cases h : cur.isEmpty
    · simp [wrapWords, h, List.isEmpty_iff.mp h]
    · simp [wrapWords, h]
  | cons w ws ih =>
    intro cur
    simp only [wrapWords]
    by_cases h1 : (joinSp (cur ++ [w])).length > 20
    · rw [if_pos h1]
      by_cases h2 : (cur ++ [w]).length > 1
      · rw [if_pos h2]; simp [ih]
      · rw [if_neg h2]; simp [ih]
    · rw [if_neg h1]
      simp [ih]

/-- Invariant of the wrap loop: if the pending line is empty, a single
word, or joins to at most 20 characters, then every emitted line is a
single word or joins to at most 20 characters. -/
theorem wrapWords_lines_short :
    ∀ (ws cur : List String),
      (cur = [] ∨ cur.length = 1 ∨ (joinSp cur).length ≤ 20) →
      ∀ l ∈ wrapWords ws cur, l.length = 1 ∨ (joinSp l).length ≤ 20 := by
  intro ws
  induction ws with
  | nil =>
    intro cur hinv l hl
    by_cases h : cur.isEmpty
    · simp [wrapWords, h] at hl
    · simp [wrapWords, h] at hl
      subst hl
      rcases hinv with h0 | h1 | h2
      · simp [h0] at h
      · exact Or.inl h1
      · exact Or.inr h2
  | cons w ws ih =>
    intro cur hinv l hl
    simp only [wrapWords] at hl
    by_cases h1 : (joinSp (cur ++ [w])).length > 20
    · rw [if_pos h1] at hl
      by_cases h2 : (cur ++ [w]).length > 1
      · rw [if_pos h2] at hl
        rcases List.mem_cons.mp hl with rfl | hmem
        · rcases hinv with h0 | h1' | h2'
          · subst h0; simp at h2
          · exact Or.inl h1'
          · exact Or.inr h2'
        · exact ih [w] (Or.inr (Or.inl rfl)) l hmem
      · rw [if_neg h2] at hl
        rcases List.mem_cons.mp hl with rfl | hmem
        · left
          have hlen : (cur ++ [w]).length = cur.length + 1 := by simp
          omega
        · exact ih [] (Or.inl rfl) l hmem
    · rw [if_neg h1] at hl
      exact ih (cur ++ [w]) (Or.inr (Or.inr (by omega))) l hl

/-- C8: the word wrap of create_placeholders.py wraps exactly on the
20-character threshold, so every emitted line is a single word or at most
20 characters long, and the lines, concatenated, carry all words of the
title in order. -/
theorem word_wrap_spec (title : String) :
    (∀ l ∈ wrapWords (pySplit title) [], l.length = 1 ∨ (joinSp l).length ≤ 20) ∧
    (wrapWords (pySplit title) []).flatten = pySplit title ∧
    (∀ s ∈ wrapTitle title, (∃ w ∈ pySplit title, s = w) ∨ s.length ≤ 20) := by
  refine ⟨fun l hl => wrapWords_lines_short _ [] (Or.inl rfl) l hl,
    by simpa using wrapWords_flatten (pySplit title) [], ?_⟩
  intro s hs
  obtain ⟨l, hl, rfl⟩ := List.mem_map.mp hs
  rcases wrapWords_lines_short _ [] (Or.inl rfl) l hl with h1 | h2
  · left
    obtain ⟨w, rfl⟩ := List.length_eq_one.mp h1
    refine ⟨w, ?_, rfl⟩
    have hmem : w ∈ (wrapWords (pySplit title) []).flatten :=
      List.mem_flatten.mpr ⟨[w], hl, by simp⟩
    simpa [wrapWords_flatten] using hmem
  · exact Or.inr h2

/-- Witness for `word_wrap_spec`: a two-word title that fits on one line. -/
theorem word_wrap_spec_witness :
    (["aaa", "bbb"] : List String).length = 1 ∨ (joinSp ["aaa", "bbb"]).length ≤ 20 := by
  exact (word_wrap_spec "aaa bbb").1 ["aaa", "bbb"] (by decide)

end ALN
